import Mathlib

/-!
Verification of `container_service_extension/utils.py`.

The module's functions call out to external collaborators (the pyvcloud
client/org/platform SDK, `requests`, the filesystem, `cachetools`).  Each
embedded function therefore takes an explicit oracle record describing the
collaborators' replies and returns, besides its result, the list of
collaborator events it performed, so that control flow, caching and the
order of side effects can be stated and proved.
-/

namespace CSE

/-- Modelled from the spec: the bounded cache `cache = LRUCache(maxsize=1024)`
is provided by the `cachetools` dependency, whose code is not under `src/`:
a fixed-capacity least-recently-used map.  `entries` holds the key/value
pairs ordered most-recently-used first. -/
structure LRUCache (K V : Type) where
  maxsize : Nat
  entries : List (K × V)

namespace LRUCache

variable {K V : Type} [DecidableEq K]

/-- The keys currently stored, most-recently-used first. -/
def keys (c : LRUCache K V) : List K := c.entries.map Prod.fst

/-- `key in cache` — membership does not touch the recency order
(`cachetools.Cache.__contains__`). -/
def containsKey (c : LRUCache K V) (k : K) : Bool := decide (k ∈ c.keys)

/-- Pure lookup of the stored value, without a recency update; used only to
state properties about cache contents. -/
def lookup (c : LRUCache K V) (k : K) : Option V :=
  (c.entries.find? (fun e => decide (e.1 = k))).map Prod.snd

/-- `cache[key]` — on a hit the entry moves to the most-recently-used
position (`cachetools.LRUCache.__getitem__`). -/
def get (c : LRUCache K V) (k : K) : Option V × LRUCache K V :=
  match c.entries.find? (fun e => decide (e.1 = k)) with
  | some e =>
      (some e.2,
       { c with entries := (k, e.2) :: c.entries.filter (fun x => decide (x.1 ≠ k)) })
  | none => (none, c)

/-- `cache[key] = value` — inserts at the most-recently-used position and,
when the capacity is exceeded, evicts the least-recently-used entry
(`cachetools.LRUCache.__setitem__`). -/
def set (c : LRUCache K V) (k : K) (v : V) : LRUCache K V :=
  let es := (k, v) :: c.entries.filter (fun x => decide (x.1 ≠ k))
  { c with entries := if c.maxsize < es.length then es.dropLast else es }

/-- Well-formedness: distinct keys and size within capacity. -/
def wf (c : LRUCache K V) : Prop := c.keys.Nodup ∧ c.entries.length ≤ c.maxsize

theorem set_entries_head (c : LRUCache K V) (k : K) (v : V) (h : 0 < c.maxsize) :
    ∃ rest, (c.set k v).entries = (k, v) :: rest := by
  unfold set
  simp only
  by_cases hlen : c.maxsize < ((k, v) :: c.entries.filter (fun x => decide (x.1 ≠ k))).length
  · simp only [if_pos hlen]
    rcases hf : c.entries.filter (fun x => decide (x.1 ≠ k)) with _ | ⟨a, as⟩
    · rw [hf] at hlen
      simp at hlen
      omega
    · rw [hf]
      exact ⟨(a :: as).dropLast, rfl⟩
  · simp only [if_neg hlen]
    exact ⟨_, rfl⟩

theorem lookup_set_self (c : LRUCache K V) (k : K) (v : V) (h : 0 < c.maxsize) :
    (c.set k v).lookup k = some v := by
  obtain ⟨rest, hr⟩ := set_entries_head c k v h
  unfold lookup
  rw [hr]
  simp [List.find?]

theorem get_fst (c : LRUCache K V) (k : K) : (c.get k).1 = c.lookup k := by
  unfold get lookup
  rcases hf : c.entries.find? (fun e => decide (e.1 = k)) with _ | e <;> simp [hf]

theorem lookup_get_self (c : LRUCache K V) (k : K) :
    ((c.get k).2).lookup k = c.lookup k := by
  unfold get
  rcases hf : c.entries.find? (fun e => decide (e.1 = k)) with _ | e
  · rw [hf]
  · rw [hf]
    unfold lookup
    rw [hf]
    simp [List.find?]

theorem containsKey_get_self (c : LRUCache K V) (k : K) :
    ((c.get k).2).containsKey k = c.containsKey k := by
  unfold get
  rcases hf : c.entries.find? (fun e => decide (e.1 = k)) with _ | e
  · rw [hf]
  · rw [hf]
    have he : e ∈ c.entries := List.mem_of_find?_eq_some hf
    have hek : e.1 = k := by
      have := List.find?_some hf
      simpa using this
    have hmem : k ∈ c.keys := by
      exact List.mem_map.mpr ⟨e, he, hek⟩
    unfold containsKey keys
    simp [hmem]
    exact ⟨e.2, by rw [← hek]; exact he⟩

theorem containsKey_set_self (c : LRUCache K V) (k : K) (v : V) (h : 0 < c.maxsize) :
    (c.set k v).containsKey k = true := by
  obtain ⟨rest, hr⟩ := set_entries_head c k v h
  unfold containsKey keys
  rw [hr]
  simp

end LRUCache

/-- Claim C4: the connection cache is a fixed-capacity least-recently-used
cache of capacity 1024: insertion and lookup never leave more than 1024
entries, and inserting a fresh key into a full (1024-entry) cache evicts
exactly the least-recently-used entry while all other entries remain, in
order, with the new key at the most-recently-used position. -/
theorem lru_cache_capacity_eviction (c : LRUCache Nat Nat) (k v : Nat)
    (hmax : c.maxsize = 1024) (hwf : c.wf) :
    (c.set k v).entries.length ≤ 1024 ∧
    (∀ k2 : Nat, ((c.get k2).2).entries.length ≤ 1024) ∧
    (c.entries.length = 1024 → k ∉ c.keys →
      (c.set k v).entries = (k, v) :: c.entries.dropLast) := by
  obtain ⟨hnd, hle⟩ := hwf
  rw [hmax] at hle
  refine ⟨?_, ?_, ?_⟩
  · unfold LRUCache.set
    simp only
    by_cases hlen : c.maxsize < ((k, v) :: c.entries.filter (fun x => decide (x.1 ≠ k))).length
    · simp only [if_pos hlen]
      have hfl : (c.entries.filter (fun x => decide (x.1 ≠ k))).length ≤ c.entries.length :=
        List.length_filter_le _ _
      simp only [List.length_dropLast, List.length_cons]
      omega
    · simp only [if_neg hlen]
      rw [hmax] at hlen
      omega
  · intro k2
    unfold LRUCache.get
    rcases hf : c.entries.find? (fun e => decide (e.1 = k2)) with _ | e
    · rw [hf]
      exact hle
    · rw [hf]
      show (c.entries.filter (fun x => decide (x.1 ≠ k2))).length + 1 ≤ 1024
      have he : e ∈ c.entries := List.mem_of_find?_eq_some hf
      have hek : e.1 = k2 := by
        have := List.find?_some hf
        simpa using this
    -- the found entry is removed by the filter, so the length strictly drops
      have hstrict : (c.entries.filter (fun x => decide (x.1 ≠ k2))).length <
          c.entries.length := by
        apply List.length_filter_lt_length_iff_exists.mpr
        exact ⟨e, he, by simp [hek]⟩
      omega
  · intro hfull hknot
    have hfe : c.entries.filter (fun x => decide (x.1 ≠ k)) = c.entries := by
      apply List.filter_eq_self.mpr
      intro a ha
      have : a.1 ≠ k := by
        intro hak
        exact hknot (List.mem_map.mpr ⟨a, ha, hak⟩)
      simpa using this
    unfold LRUCache.set
    simp only [hfe]
    have hlen : c.maxsize < ((k, v) :: c.entries).length := by
      simp [hfull, hmax]
    simp only [if_pos hlen]
    rcases hce : c.entries with _ | ⟨a, as⟩
    · rw [hce] at hfull
      simp at hfull
    · simp [List.dropLast]

/-- A concrete full cache used to witness Claim C4's theorem. -/
def c1024 : LRUCache Nat Nat := ⟨1024, (List.range 1024).map (fun i => (i, i))⟩

/-- Witness for Claim C4's theorem at a concrete full cache. -/
theorem lru_cache_capacity_eviction_witness :
    c1024.maxsize = 1024 ∧ c1024.wf ∧ c1024.entries.length = 1024 ∧
      5000 ∉ c1024.keys ∧
      (c1024.set 5000 7).entries = (5000, 7) :: c1024.entries.dropLast := by
  have hkeys : c1024.keys = List.range 1024 := by
    unfold c1024 LRUCache.keys
    simp only [List.map_map]
    have : (Prod.fst ∘ fun i : Nat => (i, i)) = id := by
      funext i
      rfl
    rw [this, List.map_id]
  have hwf : c1024.wf := by
    constructor
    · rw [hkeys]
      exact List.nodup_range 1024
    · simp [c1024]
  have hlen : c1024.entries.length = 1024 := by simp [c1024]
  have hnot : 5000 ∉ c1024.keys := by
    rw [hkeys]
    simp
  exact ⟨rfl, hwf, hlen, hnot,
    (lru_cache_capacity_eviction c1024 5000 7 rfl hwf).2.2 hlen hnot⟩

/-! ### `get_vsphere`: cache-backed connection resolution -/

/-- Errors of the resolution chain; `keyError` models a Python `KeyError`
from indexing a dictionary with an absent key. -/
inductive VErr where
  | loginFailed
  | vmNotFound
  | vcNameFailed
  | vcenterNotFound
  | urlParseFailed
  | keyError
  deriving DecidableEq

/-- Collaborator events performed by `get_vsphere` on a cache miss, in
source order: client login, VM re-resolution under the fresh session,
`VM.get_vc`, `Platform.get_vcenter`, `urlparse`, and the scan of the
configuration's `vcs` table. -/
inductive VEv where
  | login
  | vmResolve
  | vcNameLookup
  | vcenterLookup
  | urlParse
  | secretsLookup
  deriving DecidableEq

/-- One entry of `config['vcs']`. -/
structure VcEntry where
  name : String
  username : String
  password : String
  deriving DecidableEq

/-- The part of the CSE config that `get_vsphere` reads beyond the login
parameters: the per-vCenter secrets table. -/
structure CseConfig where
  vcs : List VcEntry
  deriving DecidableEq

/-- The dictionary cached per VM id.  `hostname`/`port` keys are always
present (their values may be Python `None`, from `urlparse`);
`username`/`password` are stored as `none` when the key is absent, which
happens exactly when no `vcs` entry matched the vCenter name. -/
structure CacheItem where
  hostname : Option String
  port : Option Nat
  username : Option String
  password : Option String
  deriving DecidableEq

/-- The `VSphere(...)` endpoint built from a cache entry. -/
structure VSphereConn where
  host : Option String
  user : String
  pwd : String
  port : Option Nat
  deriving DecidableEq

/-- Oracle for the external collaborators touched on a cache miss. -/
structure VWorld where
  login : Except VErr Unit
  vmResolve : Except VErr Unit
  vcName : Except VErr String
  vcenterUrl : String → Except VErr String
  parseUrl : String → Except VErr (Option String × Option Nat)

/-- `true` iff the `Except` holds an error. -/
def isErr {ε α : Type} : Except ε α → Bool
  | .error _ => true
  | .ok _ => false

/-- The dictionary composed at `utils.py:588-596`: hostname/port from the
parsed URL, username/password from the first `vcs` entry whose `name`
equals the vCenter name (the loop breaks at the first match; no match
leaves both keys absent). -/
def composeCacheItem (cfg : CseConfig) (vcn : String) (hp : Option String × Option Nat) :
    CacheItem :=
  let base : CacheItem := ⟨hp.1, hp.2, none, none⟩
  match cfg.vcs.find? (fun vc => vc.name == vcn) with
  | some vc => { base with username := some vc.username, password := some vc.password }
  | none => base

/-- Chain steps from `urlparse` on (`utils.py:587-596`). -/
def resolveParse (w : VWorld) (cfg : CseConfig) (vcn url : String) :
    Except VErr CacheItem × List VEv :=
  match w.parseUrl url with
  | .error e => (.error e, [.login, .vmResolve, .vcNameLookup, .vcenterLookup, .urlParse])
  | .ok hp =>
      (.ok (composeCacheItem cfg vcn hp),
       [.login, .vmResolve, .vcNameLookup, .vcenterLookup, .urlParse, .secretsLookup])

/-- Chain steps from the vCenter URL query on (`utils.py:586-596`). -/
def resolveTail (w : VWorld) (cfg : CseConfig) (vcn : String) :
    Except VErr CacheItem × List VEv :=
  match w.vcenterUrl vcn with
  | .error e => (.error e, [.login, .vmResolve, .vcNameLookup, .vcenterLookup])
  | .ok url => resolveParse w cfg vcn url

/-- The miss path of `get_vsphere` (`utils.py:570-596`): login with the
system-org credentials, re-resolve the VM, read its vCenter name, query the
platform for the vCenter URL, parse host/port out of it, and compose the
dictionary to cache.  Returns the composed entry and the events performed. -/
def resolveChain (w : VWorld) (cfg : CseConfig) : Except VErr CacheItem × List VEv :=
  match w.login with
  | .error e => (.error e, [.login])
  | .ok _ =>
    match w.vmResolve with
    | .error e => (.error e, [.login, .vmResolve])
    | .ok _ =>
      match w.vcName with
      | .error e => (.error e, [.login, .vmResolve, .vcNameLookup])
      | .ok vcn => resolveTail w cfg vcn

/-- The common return step (`utils.py:602-603`): read the cached dictionary
(the source indexes `cache[vm_id]` four times; each read has the same LRU
effect) and build the `VSphere` endpoint; indexing an absent
`username`/`password` key raises `KeyError`. -/
def connFromCache (c : LRUCache String CacheItem) (k : String) :
    Except VErr VSphereConn × LRUCache String CacheItem :=
  match c.get k with
  | (some it, c2) =>
    match it.username, it.password with
    | some u, some p => (.ok ⟨it.hostname, u, p, it.port⟩, c2)
    | some _, none => (.error .keyError, c2)
    | none, _ => (.error .keyError, c2)
  | (none, c2) => (.error .keyError, c2)

/-- `get_vsphere` (`utils.py:553-603`), with the VM id (extracted from the
`vapp` argument) given directly.  On a cache miss the resolution chain runs
and its composed entry is stored under the VM id in a single assignment;
on a hit no chain event occurs. -/
def get_vsphere (w : VWorld) (cfg : CseConfig) (c : LRUCache String CacheItem)
    (vm_id : String) :
    Except VErr VSphereConn × LRUCache String CacheItem × List VEv :=
  if c.containsKey vm_id then
    match connFromCache c vm_id with
    | (r, c2) => (r, c2, [])
  else
    match resolveChain w cfg with
    | (.error e, tr) => (.error e, c, tr)
    | (.ok item, tr) =>
      match connFromCache (c.set vm_id item) vm_id with
      | (r, c2) => (r, c2, tr)

theorem connFromCache_snd (c : LRUCache String CacheItem) (k : String) :
    (connFromCache c k).2 = (c.get k).2 := by
  unfold connFromCache
  rcases hg : c.get k with ⟨ov, c2⟩
  rcases ov with _ | it
  · rfl
  · rcases it with ⟨h1, p1, u1, pw1⟩
    rcases u1 with _ | u <;> rcases pw1 with _ | p <;> rfl

theorem resolveChain_ok_head (w : VWorld) (cfg : CseConfig) (v1 v2 : Unit) (n : String)
    (hl : w.login = .ok v1) (hv : w.vmResolve = .ok v2) (hn : w.vcName = .ok n) :
    resolveChain w cfg = resolveTail w cfg n := by
  unfold resolveChain
  rw [hl, hv, hn]

theorem resolveTail_ok_url (w : VWorld) (cfg : CseConfig) (n url : String)
    (hu : w.vcenterUrl n = .ok url) :
    resolveTail w cfg n = resolveParse w cfg n url := by
  unfold resolveTail
  rw [hu]

/-- If a chain step fails, the whole chain result is an error. -/
theorem resolveChain_error_of_step (w : VWorld) (cfg : CseConfig)
    (hfail : isErr w.login = true ∨ isErr w.vmResolve = true ∨ isErr w.vcName = true ∨
      (∃ n, w.vcName = .ok n ∧ isErr (w.vcenterUrl n) = true) ∨
      (∃ n u, w.vcName = .ok n ∧ w.vcenterUrl n = .ok u ∧ isErr (w.parseUrl u) = true)) :
    ∃ e tr, resolveChain w cfg = (.error e, tr) := by
  unfold resolveChain
  rcases hfail with h | h | h | ⟨n, hn, h⟩ | ⟨n, u, hn, hu, h⟩
  · rcases hl : w.login with e | v
    · exact ⟨e, _, rfl⟩
    · rw [hl] at h
      simp [isErr] at h
  · rcases hl : w.login with e | v
    · exact ⟨e, _, rfl⟩
    · rcases hv : w.vmResolve with e | v2
      · exact ⟨e, _, rfl⟩
      · rw [hv] at h
        simp [isErr] at h
  · rcases hl : w.login with e | v
    · exact ⟨e, _, rfl⟩
    · rcases hv : w.vmResolve with e | v2
      · exact ⟨e, _, rfl⟩
      · rcases hvc : w.vcName with e | n
        · exact ⟨e, _, rfl⟩
        · rw [hvc] at h
          simp [isErr] at h
  · rcases hl : w.login with e | v
    · exact ⟨e, _, rfl⟩
    · rcases hv : w.vmResolve with e | v2
      · exact ⟨e, _, rfl⟩
      · rw [hn]
        show ∃ e tr, resolveTail w cfg n = (Except.error e, tr)
        unfold resolveTail
        rcases hu2 : w.vcenterUrl n with e | u
        · exact ⟨e, _, rfl⟩
        · rw [hu2] at h
          simp [isErr] at h
  · rcases hl : w.login with e | v
    · exact ⟨e, _, rfl⟩
    · rcases hv : w.vmResolve with e | v2
      · exact ⟨e, _, rfl⟩
      · rw [hn]
        show ∃ e tr, resolveTail w cfg n = (Except.error e, tr)
        rw [resolveTail_ok_url w cfg n u hu]
        unfold resolveParse
        rcases hp2 : w.parseUrl u with e | z
        · exact ⟨e, _, rfl⟩
        · rw [hp2] at h
          simp [isErr] at h

theorem get_vsphere_hit (w : VWorld) (cfg : CseConfig) (c : LRUCache String CacheItem)
    (vm_id : String) (hhit : c.containsKey vm_id = true) :
    get_vsphere w cfg c vm_id =
      ((connFromCache c vm_id).1, (connFromCache c vm_id).2, []) := by
  unfold get_vsphere
  rw [hhit]
  rcases hcf : connFromCache c vm_id with ⟨r, c2⟩
  simp

theorem get_vsphere_miss_ok (w : VWorld) (cfg : CseConfig) (c : LRUCache String CacheItem)
    (vm_id : String) (hmiss : c.containsKey vm_id = false)
    (item : CacheItem) (tr : List VEv) (hchain : resolveChain w cfg = (.ok item, tr)) :
    get_vsphere w cfg c vm_id =
      ((connFromCache (c.set vm_id item) vm_id).1,
       (connFromCache (c.set vm_id item) vm_id).2, tr) := by
  unfold get_vsphere
  rw [hmiss, hchain]
  rcases hcf : connFromCache (c.set vm_id item) vm_id with ⟨r, c2⟩
  simp [hcf]

theorem get_vsphere_miss_error (w : VWorld) (cfg : CseConfig) (c : LRUCache String CacheItem)
    (vm_id : String) (hmiss : c.containsKey vm_id = false)
    (e : VErr) (tr : List VEv) (hchain : resolveChain w cfg = (.error e, tr)) :
    get_vsphere w cfg c vm_id = (.error e, c, tr) := by
  unfold get_vsphere
  rw [hmiss, hchain]
  simp

theorem resolveChain_ok_trace (w : VWorld) (cfg : CseConfig) (item : CacheItem)
    (tr : List VEv) (hchain : resolveChain w cfg = (.ok item, tr)) :
    tr = [.login, .vmResolve, .vcNameLookup, .vcenterLookup, .urlParse, .secretsLookup] := by
  unfold resolveChain at hchain
  rcases hl : w.login with e | v
  · rw [hl] at hchain
    simp at hchain
  · rw [hl] at hchain
    rcases hv : w.vmResolve with e | v2
    · rw [hv] at hchain
      simp at hchain
    · rw [hv] at hchain
      rcases hn : w.vcName with e | n
      · rw [hn] at hchain
        simp at hchain
      · rw [hn] at hchain
        have h2 : resolveTail w cfg n = (Except.ok item, tr) := hchain
        unfold resolveTail at h2
        rcases hu : w.vcenterUrl n with e | url
        · rw [hu] at h2
          simp at h2
        · rw [hu] at h2
          have h3 : resolveParse w cfg n url = (Except.ok item, tr) := h2
          unfold resolveParse at h3
          rcases hp : w.parseUrl url with e | z
          · rw [hp] at h3
            simp at h3
          · rw [hp] at h3
            rw [Prod.mk.injEq] at h3
            exact h3.2.symm

theorem connFromCache_eval (c : LRUCache String CacheItem) (k : String) (it : CacheItem)
    (hlk : c.lookup k = some it) :
    (connFromCache c k).1 =
      (match it.username, it.password with
       | some u, some p => Except.ok (⟨it.hostname, u, p, it.port⟩ : VSphereConn)
       | some _, none => Except.error VErr.keyError
       | none, _ => Except.error VErr.keyError) := by
  have hg1 : (c.get k).1 = some it := by
    rw [LRUCache.get_fst]
    exact hlk
  unfold connFromCache
  rcases hg : c.get k with ⟨ov, c2⟩
  rw [hg] at hg1
  simp at hg1
  subst hg1
  rcases it with ⟨h1, p1, u1, pw1⟩
  rcases u1 with _ | u <;> rcases pw1 with _ | p <;> rfl

/-- Claim C2: on a cache miss, if any step of the resolution chain fails —
session login, VM re-resolution, vCenter-name lookup, vCenter URL query, or
URL parsing — the cache afterwards is exactly the input cache, and in
particular holds no entry (full or partial) under the VM id. -/
theorem get_vsphere_failed_chain_leaves_cache (w : VWorld) (cfg : CseConfig)
    (c : LRUCache String CacheItem) (vm_id : String)
    (hmiss : c.containsKey vm_id = false)
    (hfail : isErr w.login = true ∨ isErr w.vmResolve = true ∨ isErr w.vcName = true ∨
      (∃ n, w.vcName = .ok n ∧ isErr (w.vcenterUrl n) = true) ∨
      (∃ n u, w.vcName = .ok n ∧ w.vcenterUrl n = .ok u ∧ isErr (w.parseUrl u) = true)) :
    (get_vsphere w cfg c vm_id).2.1 = c ∧
    ((get_vsphere w cfg c vm_id).2.1).containsKey vm_id = false := by
  obtain ⟨e, tr, hchain⟩ := resolveChain_error_of_step w cfg hfail
  rw [get_vsphere_miss_error w cfg c vm_id hmiss e tr hchain]
  exact ⟨rfl, hmiss⟩

/-- A world whose login step fails; used to witness Claim C2's theorem. -/
def wFail : VWorld :=
  { login := .error .loginFailed
    vmResolve := .ok ()
    vcName := .ok "vc1"
    vcenterUrl := fun _ => .ok "https://vc.example.com:443"
    parseUrl := fun _ => .ok (some "vc.example.com", some 443) }

/-- A world whose whole resolution chain succeeds with vCenter name "vc2". -/
def wOk : VWorld :=
  { login := .ok ()
    vmResolve := .ok ()
    vcName := .ok "vc2"
    vcenterUrl := fun _ => .ok "https://vc.example.com:443"
    parseUrl := fun _ => .ok (some "vc.example.com", some 443) }

/-- A world whose chain succeeds with vCenter name "vc3", absent from
`cfg2`'s secrets table. -/
def wNoMatch : VWorld :=
  { login := .ok ()
    vmResolve := .ok ()
    vcName := .ok "vc3"
    vcenterUrl := fun _ => .ok "https://vc.example.com:443"
    parseUrl := fun _ => .ok (some "vc.example.com", some 443) }

/-- A secrets table with entries named "vc1" and "vc2". -/
def cfg2 : CseConfig := ⟨[⟨"vc1", "u1", "p1"⟩, ⟨"vc2", "u2", "p2"⟩]⟩

/-- The empty connection cache with the source's capacity 1024. -/
def emptyVCache : LRUCache String CacheItem := ⟨1024, []⟩

/-- Witness for Claim C2's theorem at a concrete failing world. -/
theorem get_vsphere_failed_chain_leaves_cache_witness :
    emptyVCache.containsKey "vm-1" = false ∧ isErr wFail.login = true ∧
      ((get_vsphere wFail cfg2 emptyVCache "vm-1").2.1 = emptyVCache ∧
       ((get_vsphere wFail cfg2 emptyVCache "vm-1").2.1).containsKey "vm-1" = false) :=
  ⟨rfl, rfl,
   get_vsphere_failed_chain_leaves_cache wFail cfg2 emptyVCache "vm-1" rfl (Or.inl rfl)⟩

/-- Claim C3: on a cache hit `get_vsphere` performs no collaborator event
(no login, no VM/vCenter/secrets lookup) and its result is built from the
cached entry alone; for an uncached VM id whose chain succeeds, the first
call performs exactly one login and an immediately following call for the
same VM id (under any world) performs no event at all. -/
theorem get_vsphere_cache_hit_no_chain (w wB : VWorld) (cfg cfgB : CseConfig)
    (c : LRUCache String CacheItem) (vm_id : String) :
    (c.containsKey vm_id = true →
      (get_vsphere w cfg c vm_id).2.2 = [] ∧
      (get_vsphere w cfg c vm_id).1 = (connFromCache c vm_id).1) ∧
    (c.containsKey vm_id = false → 0 < c.maxsize →
      ∀ item tr, resolveChain w cfg = (.ok item, tr) →
        ((get_vsphere w cfg c vm_id).2.2.count VEv.login = 1 ∧
         (get_vsphere wB cfgB (get_vsphere w cfg c vm_id).2.1 vm_id).2.2 = [])) := by
  constructor
  · intro hhit
    rw [get_vsphere_hit w cfg c vm_id hhit]
    exact ⟨rfl, rfl⟩
  · intro hmiss hmax item tr hchain
    have htr := resolveChain_ok_trace w cfg item tr hchain
    have hmeq := get_vsphere_miss_ok w cfg c vm_id hmiss item tr hchain
    constructor
    · rw [hmeq]
      show tr.count VEv.login = 1
      rw [htr]
      decide
    · have hc2 : (get_vsphere w cfg c vm_id).2.1.containsKey vm_id = true := by
        rw [hmeq]
        show (connFromCache (c.set vm_id item) vm_id).2.containsKey vm_id = true
        rw [connFromCache_snd, LRUCache.containsKey_get_self]
        exact LRUCache.containsKey_set_self c vm_id item hmax
      rw [get_vsphere_hit wB cfgB _ vm_id hc2]

/-- Witness for Claim C3's theorem: a fresh VM id, resolved twice. -/
theorem get_vsphere_cache_hit_no_chain_witness :
    emptyVCache.containsKey "vm-9" = false ∧ 0 < emptyVCache.maxsize ∧
    resolveChain wOk cfg2 =
      (.ok ⟨some "vc.example.com", some 443, some "u2", some "p2"⟩,
       [.login, .vmResolve, .vcNameLookup, .vcenterLookup, .urlParse, .secretsLookup]) ∧
    ((get_vsphere wOk cfg2 emptyVCache "vm-9").2.2.count VEv.login = 1 ∧
     (get_vsphere wOk cfg2 (get_vsphere wOk cfg2 emptyVCache "vm-9").2.1 "vm-9").2.2 = []) := by
  refine ⟨rfl, by decide, rfl, ?_⟩
  exact (get_vsphere_cache_hit_no_chain wOk wOk cfg2 cfg2 emptyVCache "vm-9").2 rfl
    (by decide) ⟨some "vc.example.com", some 443, some "u2", some "p2"⟩
    [.login, .vmResolve, .vcNameLookup, .vcenterLookup, .urlParse, .secretsLookup] rfl

/-- Counterexample to Claim C1 as stated: with an uncached VM id whose
vCenter name "vc3" matches no entry of the secrets table ["vc1","vc2"],
`get_vsphere` does raise an error — the composed dictionary lacks the
`username`/`password` keys, and `cache[vm_id]['username']` at
`utils.py:602` raises `KeyError` — contradicting "no error is raised". -/
theorem get_vsphere_missing_vc_counterexample :
    emptyVCache.containsKey "vm-1" = false ∧
    cfg2.vcs.find? (fun vc => vc.name == "vc3") = none ∧
    (get_vsphere wNoMatch cfg2 emptyVCache "vm-1").1 = .error .keyError :=
  ⟨rfl, rfl, rfl⟩

/-- Claim C1 (amended): for an uncached VM id whose chain succeeds, when the
vCenter name matches no entry of the secrets table the cached entry's
username and password are unset and `get_vsphere` raises a key-missing
error while building the connection; when a matching entry exists, the
resolved connection's username and password equal those of the first
matching entry. -/
theorem get_vsphere_config_matching (w : VWorld) (cfg : CseConfig)
    (c : LRUCache String CacheItem) (vm_id : String)
    (hmiss : c.containsKey vm_id = false) (hmax : 0 < c.maxsize)
    (n : String) (hn : w.vcName = .ok n)
    (v1 v2 : Unit) (hl : w.login = .ok v1) (hv : w.vmResolve = .ok v2)
    (url : String) (hu : w.vcenterUrl n = .ok url)
    (host : Option String) (port : Option Nat) (hp : w.parseUrl url = .ok (host, port)) :
    (cfg.vcs.find? (fun vc => vc.name == n) = none →
      (get_vsphere w cfg c vm_id).1 = .error .keyError ∧
      (get_vsphere w cfg c vm_id).2.1.lookup vm_id = some ⟨host, port, none, none⟩) ∧
    (∀ vc, cfg.vcs.find? (fun x => x.name == n) = some vc →
      (get_vsphere w cfg c vm_id).1 = .ok ⟨host, vc.username, vc.password, port⟩) := by
  have hchain : resolveChain w cfg =
      (.ok (composeCacheItem cfg n (host, port)),
       [.login, .vmResolve, .vcNameLookup, .vcenterLookup, .urlParse, .secretsLookup]) := by
    rw [resolveChain_ok_head w cfg v1 v2 n hl hv hn, resolveTail_ok_url w cfg n url hu]
    unfold resolveParse
    rw [hp]
  have hmeq := get_vsphere_miss_ok w cfg c vm_id hmiss _ _ hchain
  have hlk : (c.set vm_id (composeCacheItem cfg n (host, port))).lookup vm_id =
      some (composeCacheItem cfg n (host, port)) :=
    LRUCache.lookup_set_self c vm_id _ hmax
  constructor
  · intro hfind
    have hitem : composeCacheItem cfg n (host, port) = ⟨host, port, none, none⟩ := by
      unfold composeCacheItem
      rw [hfind]
    rw [hitem] at hmeq hlk
    constructor
    · rw [hmeq]
      show (connFromCache (c.set vm_id ⟨host, port, none, none⟩) vm_id).1 = _
      rw [connFromCache_eval _ _ _ hlk]
    · rw [hmeq]
      show (connFromCache (c.set vm_id ⟨host, port, none, none⟩) vm_id).2.lookup vm_id = _
      rw [connFromCache_snd, LRUCache.lookup_get_self]
      exact hlk
  · intro vc hfind
    have hitem : composeCacheItem cfg n (host, port) =
        ⟨host, port, some vc.username, some vc.password⟩ := by
      unfold composeCacheItem
      rw [hfind]
    rw [hitem] at hmeq hlk
    rw [hmeq]
    show (connFromCache (c.set vm_id ⟨host, port, some vc.username, some vc.password⟩) vm_id).1 = _
    rw [connFromCache_eval _ _ _ hlk]

/-- Witness for Claim C1's amended theorem: vCenter name "vc2" matches the
second table entry, whose secrets flow into the returned connection. -/
theorem get_vsphere_config_matching_witness :
    cfg2.vcs.find? (fun x => x.name == "vc2") = some ⟨"vc2", "u2", "p2"⟩ ∧
    (get_vsphere wOk cfg2 emptyVCache "vm-7").1 =
      .ok ⟨some "vc.example.com", "u2", "p2", some 443⟩ := by
  refine ⟨rfl, ?_⟩
  exact (get_vsphere_config_matching wOk cfg2 emptyVCache "vm-7" rfl (by decide) "vc2" rfl
    () () rfl rfl "https://vc.example.com:443" rfl (some "vc.example.com") (some 443) rfl).2
    ⟨"vc2", "u2", "p2"⟩ rfl

/-! ### Catalog upload and task-resolution workflow -/

/-- Errors of the catalog workflow: `entityNotFound` models
`EntityNotFoundException`, `uploadFailed` an upload rejection, `taskFailed`
a failed platform task, `noTask` an empty `Tasks.Task` list. -/
inductive CErr where
  | entityNotFound
  | uploadFailed
  | taskFailed
  | noTask
  deriving DecidableEq

/-- Collaborator events of the catalog workflow, in source order. -/
inductive CEv where
  | getOrg
  | deleteItem
  | reload
  | getItem
  | getResource
  | waitTask (t : Nat)
  | uploadOvf
  deriving DecidableEq

/-- Oracle for one execution of `wait_for_catalog_item_to_resolve`:
the `org.get_catalog_item` outcome, the `client.get_resource` outcome
(yielding the resource's `Tasks.Task` list), and the
`wait_for_success` outcome per task. -/
structure WaitWorld where
  itemLookup : Except CErr Unit
  resourceTasks : Except CErr (List Nat)
  taskResult : Nat → Bool

/-- `client.get_task_monitor().wait_for_success(resource.Tasks.Task[0])`
(`utils.py:420`): only the first task of the list is waited on; an empty
list makes the `[0]` indexing fail. -/
def waitOnTasks (w : WaitWorld) (pre : List CEv) : List Nat → Except CErr Unit × List CEv
  | [] => (.error .noTask, pre ++ [.getItem, .getResource])
  | t :: _ =>
      (if w.taskResult t then .ok () else .error .taskFailed,
       pre ++ [.getItem, .getResource, .waitTask t])

/-- `wait_for_catalog_item_to_resolve` (`utils.py:402-420`): resolve the
org when not supplied (raising not-found on failure), resolve the catalog
item (propagating not-found for a missing org/catalog/item), fetch its
linked resource and block on the resource's first task. -/
def wait_for_catalog_item_to_resolve (w : WaitWorld) (orgGiven orgFound : Bool) :
    Except CErr Unit × List CEv :=
  if orgGiven = false ∧ orgFound = false then
    (.error .entityNotFound, [.getOrg])
  else
    match w.itemLookup with
    | .error e => (.error e, (if orgGiven then [] else [CEv.getOrg]) ++ [.getItem])
    | .ok _ =>
      match w.resourceTasks with
      | .error e => (.error e, (if orgGiven then [] else [CEv.getOrg]) ++ [.getItem, .getResource])
      | .ok tasks => waitOnTasks w (if orgGiven then [] else [CEv.getOrg]) tasks

/-- Oracle for one execution of `upload_ova_to_catalog`: the wait worlds of
the post-delete drain and the post-upload confirmation, and the
`upload_ovf` outcome.  The synchronous catalog item listing is passed
separately as a list of item names. -/
structure UploadWorld where
  drain : WaitWorld
  uploadOk : Bool
  confirm : WaitWorld

/-- The common tail of `upload_ova_to_catalog` (`utils.py:388-395`):
`upload_ovf`, `org.reload`, then the confirmation wait (called with the
org supplied). -/
def uploadPhase (w : UploadWorld) (items : List String) (itemName : String)
    (tr : List CEv) : Except CErr Unit × List String × List CEv :=
  if w.uploadOk then
    match wait_for_catalog_item_to_resolve w.confirm true true with
    | (r2, trw) => (r2, items ++ [itemName], tr ++ [.uploadOvf, .reload] ++ trw)
  else
    (.error .uploadFailed, items, tr ++ [.uploadOvf])

/-- `upload_ova_to_catalog` (`utils.py:335-399`), with the item name (the
source file's base name) given directly and the catalog's current item
names as `items`.  Update mode deletes an existing item, reloads, and
drain-waits on the deleted item's prior task (its `EntityNotFoundException`
— from a failed delete or a failed post-delete lookup — is swallowed);
non-update mode returns at once when the item exists.  Both then fall
through to the upload phase. -/
def upload_ova_to_catalog (w : UploadWorld) (items : List String)
    (itemName : String) (update : Bool) :
    Except CErr Unit × List String × List CEv :=
  if update then
    if itemName ∈ items then
      match wait_for_catalog_item_to_resolve w.drain true true with
      | (.ok _, trw) =>
          uploadPhase w (items.erase itemName) itemName ([.deleteItem, .reload] ++ trw)
      | (.error .entityNotFound, trw) =>
          uploadPhase w (items.erase itemName) itemName ([.deleteItem, .reload] ++ trw)
      | (.error e, trw) => (.error e, items.erase itemName, [.deleteItem, .reload] ++ trw)
    else
      uploadPhase w items itemName []
  else
    if itemName ∈ items then
      (.ok (), items, [.getItem])
    else
      uploadPhase w items itemName [.getItem]

/-- Selects the delete, upload and task-wait events of a trace. -/
def isCoreEv : CEv → Bool
  | .deleteItem => true
  | .uploadOvf => true
  | .waitTask _ => true
  | _ => false

/-- Selects the delete, upload, reload and task-wait events of a trace. -/
def isFlowEv : CEv → Bool
  | .deleteItem => true
  | .uploadOvf => true
  | .reload => true
  | .waitTask _ => true
  | _ => false

/-- Selects the task-wait events of a trace. -/
def isWaitEv : CEv → Bool
  | .waitTask _ => true
  | _ => false

theorem wait_eval_success (w : WaitWorld) (of : Bool) (t : Nat) (ts : List Nat)
    (h1 : w.itemLookup = .ok ()) (h2 : w.resourceTasks = .ok (t :: ts))
    (h3 : w.taskResult t = true) :
    wait_for_catalog_item_to_resolve w true of =
      (.ok (), [.getItem, .getResource, .waitTask t]) := by
  simp [wait_for_catalog_item_to_resolve, waitOnTasks, h1, h2, h3]

theorem wait_eval_failure (w : WaitWorld) (of : Bool) (t : Nat) (ts : List Nat)
    (h1 : w.itemLookup = .ok ()) (h2 : w.resourceTasks = .ok (t :: ts))
    (h3 : w.taskResult t = false) :
    wait_for_catalog_item_to_resolve w true of =
      (.error .taskFailed, [.getItem, .getResource, .waitTask t]) := by
  simp [wait_for_catalog_item_to_resolve, waitOnTasks, h1, h2, h3]

/-- Claim C8: the task-wait primitive raises a not-found error when the org
cannot be resolved or when the catalog/catalog-item lookup fails; when the
item resolves to a resource with tasks, it waits on exactly the first task
of the list and no other, succeeds iff that task succeeds, and raises on
that task's failure. -/
theorem wait_resolves_first_task (w : WaitWorld) (og of : Bool) :
    ((og = false ∧ of = false) →
       (wait_for_catalog_item_to_resolve w og of).1 = .error .entityNotFound) ∧
    (og = true → w.itemLookup = .error .entityNotFound →
       (wait_for_catalog_item_to_resolve w og of).1 = .error .entityNotFound) ∧
    (og = true → ∀ t ts, w.itemLookup = .ok () → w.resourceTasks = .ok (t :: ts) →
       ((wait_for_catalog_item_to_resolve w og of).2.filter isWaitEv = [CEv.waitTask t] ∧
        ((wait_for_catalog_item_to_resolve w og of).1 = .ok () ↔ w.taskResult t = true) ∧
        (w.taskResult t = false →
          (wait_for_catalog_item_to_resolve w og of).1 = .error .taskFailed))) := by
  refine ⟨?_, ?_, ?_⟩
  · rintro ⟨h1, h2⟩
    subst h1
    subst h2
    simp [wait_for_catalog_item_to_resolve]
  · rintro h1 h2
    subst h1
    simp [wait_for_catalog_item_to_resolve, h2]
  · rintro h1 t ts h2 h3
    subst h1
    rcases htr : w.taskResult t with _ | _
    · rw [wait_eval_failure w of t ts h2 h3 htr]
      refine ⟨by simp [isWaitEv], by simp, fun _ => rfl⟩
    · rw [wait_eval_success w of t ts h2 h3 htr]
      refine ⟨by simp [isWaitEv], by simp [htr], ?_⟩
      intro hcontra
      simp at hcontra

/-- Concrete wait oracle used to witness Claim C8's theorem. -/
def wwC8 : WaitWorld := ⟨.ok (), .ok [42, 7], fun t => t == 42⟩

/-- Witness for Claim C8's theorem: the wait touches only task 42, the
first of the resource's two tasks. -/
theorem wait_resolves_first_task_witness :
    wwC8.itemLookup = .ok () ∧ wwC8.resourceTasks = .ok (42 :: [7]) ∧
    ((wait_for_catalog_item_to_resolve wwC8 true true).2.filter isWaitEv =
        [CEv.waitTask 42] ∧
     ((wait_for_catalog_item_to_resolve wwC8 true true).1 = .ok () ↔
        wwC8.taskResult 42 = true) ∧
     (wwC8.taskResult 42 = false →
       (wait_for_catalog_item_to_resolve wwC8 true true).1 = .error .taskFailed)) := by
  refine ⟨rfl, rfl, ?_⟩
  exact (wait_resolves_first_task wwC8 true true).2.2 rfl 42 [7] rfl rfl

/-- Claim C5: in update mode with a pre-existing item of the derived name
(and the platform still resolving the deleted item for the drain wait,
all tasks succeeding), the call performs exactly one delete, one drain
task-wait, one upload and one confirmation task-wait, in that order, and
returns successfully. -/
theorem upload_update_mode_sequence (w : UploadWorld) (items : List String) (n : String)
    (hpre : n ∈ items) (t tB : Nat) (ts tsB : List Nat)
    (hd1 : w.drain.itemLookup = .ok ()) (hd2 : w.drain.resourceTasks = .ok (t :: ts))
    (hd3 : w.drain.taskResult t = true)
    (hup : w.uploadOk = true)
    (hc1 : w.confirm.itemLookup = .ok ()) (hc2 : w.confirm.resourceTasks = .ok (tB :: tsB))
    (hc3 : w.confirm.taskResult tB = true) :
    (upload_ova_to_catalog w items n true).1 = .ok () ∧
    (upload_ova_to_catalog w items n true).2.2.filter isCoreEv =
      [CEv.deleteItem, CEv.waitTask t, CEv.uploadOvf, CEv.waitTask tB] := by
  have hdw := wait_eval_success w.drain true t ts hd1 hd2 hd3
  have hcw := wait_eval_success w.confirm true tB tsB hc1 hc2 hc3
  simp [upload_ova_to_catalog, uploadPhase, hpre, hup, hdw, hcw, isCoreEv]

/-- Concrete upload oracle with all steps succeeding. -/
def uwOk : UploadWorld :=
  { drain := ⟨.ok (), .ok [11], fun _ => true⟩
    uploadOk := true
    confirm := ⟨.ok (), .ok [12], fun _ => true⟩ }

/-- Witness for Claim C5's theorem at a concrete catalog state. -/
theorem upload_update_mode_sequence_witness :
    ("box.ova" ∈ ["box.ova", "other.ova"]) ∧
    ((upload_ova_to_catalog uwOk ["box.ova", "other.ova"] "box.ova" true).1 = .ok () ∧
     (upload_ova_to_catalog uwOk ["box.ova", "other.ova"] "box.ova" true).2.2.filter
        isCoreEv = [CEv.deleteItem, CEv.waitTask 11, CEv.uploadOvf, CEv.waitTask 12]) := by
  refine ⟨by decide, ?_⟩
  exact upload_update_mode_sequence uwOk ["box.ova", "other.ova"] "box.ova" (by decide)
    11 12 [] [] rfl rfl rfl rfl rfl rfl rfl

/-- Claim C6: with update mode off and the item already present,
`upload_ova_to_catalog` returns successfully without uploading and leaves
the catalog unchanged; calling it again on the resulting catalog again
performs no upload and succeeds. -/
theorem upload_skip_idempotent (w1 w2 : UploadWorld) (items : List String) (n : String)
    (hpre : n ∈ items) :
    (upload_ova_to_catalog w1 items n false).1 = .ok () ∧
    (upload_ova_to_catalog w1 items n false).2.1 = items ∧
    (upload_ova_to_catalog w1 items n false).2.2.count CEv.uploadOvf = 0 ∧
    (upload_ova_to_catalog w2 (upload_ova_to_catalog w1 items n false).2.1 n false).1
      = .ok () ∧
    (upload_ova_to_catalog w2 (upload_ova_to_catalog w1 items n false).2.1 n
        false).2.2.count CEv.uploadOvf = 0 := by
  have h1 : upload_ova_to_catalog w1 items n false = (.ok (), items, [CEv.getItem]) := by
    simp [upload_ova_to_catalog, hpre]
  have h2 : upload_ova_to_catalog w2 items n false = (.ok (), items, [CEv.getItem]) := by
    simp [upload_ova_to_catalog, hpre]
  rw [h1]
  refine ⟨rfl, rfl, ?_, ?_, ?_⟩
  · show List.count CEv.uploadOvf [CEv.getItem] = 0
    decide
  · show (upload_ova_to_catalog w2 items n false).1 = .ok ()
    rw [h2]
  · show (upload_ova_to_catalog w2 items n false).2.2.count CEv.uploadOvf = 0
    rw [h2]
    show List.count CEv.uploadOvf [CEv.getItem] = 0
    decide

/-- Witness for Claim C6's theorem at a concrete catalog state. -/
theorem upload_skip_idempotent_witness :
    ("box.ova" ∈ ["box.ova"]) ∧
    ((upload_ova_to_catalog uwOk ["box.ova"] "box.ova" false).1 = .ok () ∧
     (upload_ova_to_catalog uwOk ["box.ova"] "box.ova" false).2.1 = ["box.ova"] ∧
     (upload_ova_to_catalog uwOk ["box.ova"] "box.ova" false).2.2.count CEv.uploadOvf = 0 ∧
     (upload_ova_to_catalog uwOk
        (upload_ova_to_catalog uwOk ["box.ova"] "box.ova" false).2.1 "box.ova" false).1
        = .ok () ∧
     (upload_ova_to_catalog uwOk
        (upload_ova_to_catalog uwOk ["box.ova"] "box.ova" false).2.1 "box.ova"
        false).2.2.count CEv.uploadOvf = 0) := by
  refine ⟨by decide, ?_⟩
  exact upload_skip_idempotent uwOk uwOk ["box.ova"] "box.ova" (by decide)

/-- Claim C7: with update mode off and no pre-existing item of the derived
name (upload accepted, confirmation task succeeding), the call performs
exactly one upload, one reload and one successful task-wait, in that
order, and returns without error. -/
theorem upload_fresh_sequence (w : UploadWorld) (items : List String) (n : String)
    (hpre : n ∉ items) (t : Nat) (ts : List Nat)
    (hup : w.uploadOk = true)
    (hc1 : w.confirm.itemLookup = .ok ()) (hc2 : w.confirm.resourceTasks = .ok (t :: ts))
    (hc3 : w.confirm.taskResult t = true) :
    (upload_ova_to_catalog w items n false).1 = .ok () ∧
    (upload_ova_to_catalog w items n false).2.2.filter isFlowEv =
      [CEv.uploadOvf, CEv.reload, CEv.waitTask t] := by
  have hcw := wait_eval_success w.confirm true t ts hc1 hc2 hc3
  simp [upload_ova_to_catalog, uploadPhase, hpre, hup, hcw, isFlowEv]

/-- Witness for Claim C7's theorem at a concrete catalog state. -/
theorem upload_fresh_sequence_witness :
    ("image.ova" ∉ ["other.ova"]) ∧
    ((upload_ova_to_catalog uwOk ["other.ova"] "image.ova" false).1 = .ok () ∧
     (upload_ova_to_catalog uwOk ["other.ova"] "image.ova" false).2.2.filter isFlowEv =
       [CEv.uploadOvf, CEv.reload, CEv.waitTask 12]) := by
  refine ⟨by decide, ?_⟩
  exact upload_fresh_sequence uwOk ["other.ova"] "image.ova" (by decide) 12 [] rfl rfl rfl rfl

/-! ### HTTP response processing -/

/-- A JSON value as observed by `response_to_exception`: a string, an
object, or anything else (numbers, lists, booleans, null). -/
inductive JVal where
  | str (s : String)
  | obj (fields : List (String × JVal))
  | other

/-- A decoded JSON object (Python `dict`). -/
abbrev JDict := List (String × JVal)

/-- Errors raised by the response helpers: `vcd` models
`VcdResponseError(status, message)`; `jsonDecode` a JSON decode error;
`xmlDecode` an lxml parse error; `typeError` a Python `TypeError`. -/
inductive RErr where
  | vcd (code : Nat) (msg : Option JVal)
  | jsonDecode
  | xmlDecode
  | typeError

/-- A `requests` response: status code and utf-8 decoded body. -/
structure HResponse where
  status_code : Nat
  content : String
  deriving DecidableEq

def ERROR_REASON : String := "reason"
def ERROR_MESSAGE : String := "message"
def ERROR_UNKNOWN : String := "unknown error"

/-- `fields[k]` lookup of a Python dict (first binding wins). -/
def lookupKey (fields : JDict) (k : String) : Option JVal :=
  (fields.find? (fun f => f.1 == k)).map Prod.snd

/-- Python substring containment (`sub in s`). -/
def containsSub (s sub : String) : Bool :=
  (List.range (s.length + 1)).any (fun i => sub.isPrefixOf (s.drop i))

/-- Python `k in v`: key membership for dicts, substring test for strings,
and a `TypeError` for any other value. -/
def pyIn (k : String) (v : JVal) : Except RErr Bool :=
  match v with
  | .obj fields => .ok (fields.any (fun f => f.1 == k))
  | .str s => .ok (containsSub s k)
  | .other => .error .typeError

theorem pyIn_obj (k : String) (fields : List (String × JVal)) :
    pyIn k (.obj fields) = .ok (fields.any (fun f => f.1 == k)) := rfl

theorem pyIn_str (k s : String) : pyIn k (.str s) = .ok (containsSub s k) := rfl

/-- `deserialize_response_content` (`utils.py:104-121`): parse the decoded
body as JSON when nonempty; an empty body yields an empty dict.  `jl`
stands for `json.loads` restricted to objects, partial on invalid JSON. -/
def deserialize_response_content (jl : String → Option JDict) (resp : HResponse) :
    Except RErr JDict :=
  if 0 < resp.content.length then
    match jl resp.content with
    | some d => .ok d
    | none => .error .jsonDecode
  else .ok []

/-- The message computed from `content[ERROR_MESSAGE]` at
`utils.py:139-143`: `content[m][REASON]` when the reason key is present
(string indexing raises `TypeError`), otherwise `content[m]` itself. -/
def messageOf (status : Nat) (mv : JVal) : RErr :=
  match pyIn ERROR_REASON mv with
  | .error e => e
  | .ok true =>
    match mv with
    | .obj fields => .vcd status (lookupKey fields ERROR_REASON)
    | _ => .typeError
  | .ok false => .vcd status (some mv)

/-- The message extraction of `response_to_exception` on a decoded body
(`utils.py:138-147`). -/
def extractMessage (content : JDict) (status : Nat) : RErr :=
  match lookupKey content ERROR_MESSAGE with
  | some mv => messageOf status mv
  | none => .vcd status (some (.str ERROR_UNKNOWN))

/-- `response_to_exception` (`utils.py:124-147`): always raises; a 504
reads a `message` attribute out of the XML body, any other status decodes
the JSON body and extracts a message from it.  `xl` stands for
`objectify.fromstring(content).get(ERROR_MESSAGE)`. -/
def response_to_exception (jl : String → Option JDict)
    (xl : String → Except RErr (Option String)) (resp : HResponse) : RErr :=
  if resp.status_code = 504 then
    if 0 < resp.content.length then
      match xl resp.content with
      | .error e => e
      | .ok m => .vcd 504 (m.map JVal.str)
    else .vcd 504 (some (.str "An error has occurred."))
  else
    match deserialize_response_content jl resp with
    | .error e => e
    | .ok content => extractMessage content resp.status_code

/-- `process_response` (`utils.py:79-101`): return the decoded body when
the status code is one of `requests.codes.ok/created/accepted`
(200/201/202), otherwise raise via `response_to_exception`. -/
def process_response (jl : String → Option JDict)
    (xl : String → Except RErr (Option String)) (resp : HResponse) :
    Except RErr JDict :=
  if resp.status_code = 200 ∨ resp.status_code = 201 ∨ resp.status_code = 202 then
    deserialize_response_content jl resp
  else .error (response_to_exception jl xl resp)

theorem messageOf_vcd (status : Nat) (mv : JVal)
    (h : (∃ fields, mv = .obj fields) ∨
      (∃ s, mv = .str s ∧ containsSub s ERROR_REASON = false)) :
    ∃ m, messageOf status mv = .vcd status m := by
  rcases h with ⟨fields, hf⟩ | ⟨s, hs, hsub⟩
  · subst hf
    unfold messageOf
    rw [pyIn_obj]
    rcases hany : fields.any (fun f => f.1 == ERROR_REASON) with _ | _
    · exact ⟨some (.obj fields), rfl⟩
    · exact ⟨lookupKey fields ERROR_REASON, rfl⟩
  · subst hs
    unfold messageOf
    rw [pyIn_str, hsub]
    exact ⟨some (.str s), rfl⟩

theorem extractMessage_vcd (d : JDict) (status : Nat)
    (hshape : ∀ mv, lookupKey d ERROR_MESSAGE = some mv →
      (∃ fields, mv = .obj fields) ∨
      (∃ s, mv = .str s ∧ containsSub s ERROR_REASON = false)) :
    ∃ m, extractMessage d status = .vcd status m := by
  unfold extractMessage
  rcases hlk : lookupKey d ERROR_MESSAGE with _ | mv
  · exact ⟨some (.str ERROR_UNKNOWN), rfl⟩
  · exact messageOf_vcd status mv (hshape mv hlk)

/-- Claim C9: for a response whose nonempty body is decodable (JSON object
with the documented error shape on non-2xx statuses, XML on 504),
`process_response` returns the decoded body — the empty dict for an empty
body — exactly when the status code is 200, 201 or 202; every other
status code, including other 2xx codes such as 204, raises
`VcdResponseError` carrying that status code. -/
theorem process_response_status_dispatch (jl : String → Option JDict)
    (xl : String → Except RErr (Option String)) (resp : HResponse)
    (hjson : 0 < resp.content.length → (jl resp.content).isSome = true)
    (hxml : resp.status_code = 504 → 0 < resp.content.length →
      ∃ m, xl resp.content = .ok m)
    (hshape : ∀ d, jl resp.content = some d →
      ∀ mv, lookupKey d ERROR_MESSAGE = some mv →
        (∃ fields, mv = .obj fields) ∨
        (∃ s, mv = .str s ∧ containsSub s ERROR_REASON = false)) :
    ((resp.status_code = 200 ∨ resp.status_code = 201 ∨ resp.status_code = 202) →
      ∃ d, process_response jl xl resp = .ok d ∧ (resp.content.length = 0 → d = [])) ∧
    (¬(resp.status_code = 200 ∨ resp.status_code = 201 ∨ resp.status_code = 202) →
      ∃ m, process_response jl xl resp = .error (.vcd resp.status_code m)) := by
  constructor
  · intro h2xx
    unfold process_response
    rw [if_pos h2xx]
    unfold deserialize_response_content
    by_cases hlen : 0 < resp.content.length
    · rw [if_pos hlen]
      obtain ⟨d, hd⟩ := Option.isSome_iff_exists.mp (hjson hlen)
      rw [hd]
      exact ⟨d, rfl, fun h0 => absurd h0 (by omega)⟩
    · rw [if_neg hlen]
      exact ⟨[], rfl, fun _ => rfl⟩
  · intro hn2xx
    unfold process_response
    rw [if_neg hn2xx]
    unfold response_to_exception
    by_cases h504 : resp.status_code = 504
    · rw [if_pos h504, h504]
      by_cases hlen : 0 < resp.content.length
      · obtain ⟨m, hm⟩ := hxml h504 hlen
        rw [if_pos hlen, hm]
        exact ⟨m.map JVal.str, rfl⟩
      · rw [if_neg hlen]
        exact ⟨some (.str "An error has occurred."), rfl⟩
    · rw [if_neg h504]
      unfold deserialize_response_content
      by_cases hlen : 0 < resp.content.length
      · obtain ⟨d, hd⟩ := Option.isSome_iff_exists.mp (hjson hlen)
        rw [if_pos hlen, hd]
        obtain ⟨m, hm⟩ := extractMessage_vcd d resp.status_code (hshape d hd)
        refine ⟨m, ?_⟩
        show Except.error (extractMessage d resp.status_code) =
          Except.error (RErr.vcd resp.status_code m)
        rw [hm]
      · rw [if_neg hlen]
        exact ⟨some (.str ERROR_UNKNOWN), rfl⟩

/-- A JSON decoder that accepts nothing; fine for empty bodies. -/
def jlNone : String → Option JDict := fun _ => none

/-- An XML reader yielding no message attribute. -/
def xlNone : String → Except RErr (Option String) := fun _ => .ok none

/-- Witness for Claim C9's theorem: a 204 with an empty body raises
`VcdResponseError(204, ...)` instead of returning. -/
theorem process_response_status_dispatch_witness :
    (¬((204 : Nat) = 200 ∨ (204 : Nat) = 201 ∨ (204 : Nat) = 202)) ∧
    (∃ m, process_response jlNone xlNone ⟨204, ""⟩ = .error (.vcd 204 m)) := by
  refine ⟨by decide, ?_⟩
  exact (process_response_status_dispatch jlNone xlNone ⟨204, ""⟩
    (fun h => absurd h (by decide))
    (fun h504 => absurd h504 (by decide))
    (fun d hd => absurd hd (by simp [jlNone]))).2 (by decide)

/-! ### File download -/

/-- Filesystem/network events of `download_file`. -/
inductive DEv where
  | httpGet
  | mkdir
  | writeFile
  deriving DecidableEq

/-- The download branch of `download_file` (`utils.py:283-297`): create the
parent directories, fetch the body from the url, and write it at
`filepath`. -/
def doDownload (body : String) (fs : String → Option String) (url filepath : String) :
    (String → Option String) × List DEv :=
  (fun p => if p = filepath then some body else fs p, [.mkdir, .httpGet, .writeFile])

/-- `download_file` (`utils.py:260-297`): skip — leaving the filesystem
untouched and performing no request — when a file exists at `filepath` and
either no sha256 was supplied or the file's digest equals it; otherwise
download and (over)write.  `hash` stands for `get_sha256` applied to a
file's content, `body` for the response body, `fs` for the filesystem
(a map from path to file content). -/
def download_file (hash : String → String) (body : String)
    (fs : String → Option String) (url filepath : String) (sha256 : Option String) :
    (String → Option String) × List DEv :=
  match fs filepath with
  | some c =>
    if sha256 = none ∨ sha256 = some (hash c) then (fs, [])
    else doDownload body fs url filepath
  | none => doDownload body fs url filepath

/-- Claim C10: when a regular file exists at `filepath` and either no
sha256 was given or the existing file's digest equals it, `download_file`
returns with the filesystem unchanged, no HTTP request and no write; a
write happens only when the file is absent or its digest differs from the
supplied sha256. -/
theorem download_file_skip (hash : String → String) (body : String)
    (fs : String → Option String) (url filepath : String) (sha256 : Option String) :
    (∀ c, fs filepath = some c → (sha256 = none ∨ sha256 = some (hash c)) →
      download_file hash body fs url filepath sha256 = (fs, [])) ∧
    (DEv.writeFile ∈ (download_file hash body fs url filepath sha256).2 →
      fs filepath = none ∨
      ∃ c s, fs filepath = some c ∧ sha256 = some s ∧ hash c ≠ s) := by
  constructor
  · intro c hc hok
    unfold download_file
    rw [hc]
    show (if sha256 = none ∨ sha256 = some (hash c) then (fs, [])
      else doDownload body fs url filepath) = (fs, [])
    rw [if_pos hok]
  · intro hw
    rcases hfc : fs filepath with _ | c
    · exact Or.inl rfl
    · right
      unfold download_file at hw
      rw [hfc] at hw
      by_cases hok : sha256 = none ∨ sha256 = some (hash c)
      · rw [show (match some c with
          | some c =>
            if sha256 = none ∨ sha256 = some (hash c) then (fs, [])
            else doDownload body fs url filepath
          | none => doDownload body fs url filepath) =
            (if sha256 = none ∨ sha256 = some (hash c) then (fs, [])
             else doDownload body fs url filepath) from rfl, if_pos hok] at hw
        simp at hw
      · push_neg at hok
        rcases hs : sha256 with _ | s
        · exact absurd hs hok.1
        · have hne : hash c ≠ s := by
            intro he
            exact hok.2 (by rw [hs, he])
          exact ⟨c, s, rfl, rfl, hne⟩

/-- A one-file filesystem used to witness Claim C10's theorem. -/
def fsW : String → Option String := fun p => if p = "ubuntu.ova" then some "DATA" else none

/-- Witness for Claim C10's theorem: the file exists and no sha256 is
given, so the call changes nothing and performs no event. -/
theorem download_file_skip_witness :
    fsW "ubuntu.ova" = some "DATA" ∧
    download_file (fun c => c) "BODY" fsW "http://host/x.ova" "ubuntu.ova" none =
      (fsW, []) := by
  refine ⟨rfl, ?_⟩
  exact (download_file_skip (fun c => c) "BODY" fsW "http://host/x.ova" "ubuntu.ova"
    none).1 "DATA" rfl (Or.inl rfl)

end CSE
